import Mathlib

/-!
Verification of the Braintrust-analysis MCP server (`server.py`,
`utils/btql_queries.py`) against its natural-language specification.

The embedding models Python JSON values with the inductive `JsonVal`
(Python `None` is `JsonVal.null`; a JSON `null` stored in a dict also
loads back as Python `None`, so both are collapsed to `JsonVal.null`
wherever the source only observes values through `dict.get`).
Python dicts with string keys are association lists `List (String × JsonVal)`;
`dict.get(k)` is `pyGet` (first matching key, `none` when absent).
The local disk is a partial map from filenames to parsed JSON documents.
Network effects are oracles passed as function arguments; `time.sleep(1)`
calls are counted rather than performed.
-/

set_option autoImplicit false

namespace Mcp

/-- A JSON value, as produced by Python's `json` module. -/
inductive JsonVal where
  | null
  | bool (b : Bool)
  | num (n : Int)
  | str (s : String)
  | arr (elems : List JsonVal)
  | obj (fields : List (String × JsonVal))

instance : Inhabited JsonVal := ⟨JsonVal.null⟩

/-- A Python dict with string keys, as an association list. -/
abbrev PyDict := List (String × JsonVal)

/-- Python `d.get(k)`: the value at the first matching key, or `none` when
the key is absent (Python `None`). -/
def pyGet (d : PyDict) (k : String) : Option JsonVal :=
  (d.find? (fun p => p.1 == k)).map (fun p => p.2)

/-- Python `d.get(k)` where a missing key and a stored JSON `null` are both
observed as `None`: collapses both to `JsonVal.null`. -/
def pyGetV (d : PyDict) (k : String) : JsonVal :=
  match pyGet d k with
  | some v => v
  | none => JsonVal.null

/-- Python `isinstance(v, dict)`. -/
def JsonVal.isObj : JsonVal → Bool
  | .obj _ => true
  | _ => false

/-- The fields of a JSON object (`[]` for non-objects; only ever applied
under an `isObj` guard, mirroring the source's `isinstance` checks). -/
def JsonVal.asObj : JsonVal → PyDict
  | .obj fs => fs
  | _ => []

/-- Python `v is None` for a value observed through `dict.get`. -/
def JsonVal.isNull : JsonVal → Bool
  | .null => true
  | _ => false

/-- Field lookup on a JSON value: `pyGet` when it is an object, else `none`. -/
def JsonVal.getField : JsonVal → String → Option JsonVal
  | .obj fs, k => pyGet fs k
  | _, _ => none

/-- Does the character list `pat` occur at the head of `l`? -/
def charsMatchAt : List Char → List Char → Bool
  | [], _ => true
  | _ :: _, [] => false
  | a :: as, b :: bs => a == b && charsMatchAt as bs

/-- Does the character list `pat` occur anywhere in `l`? -/
def charsHaveSub (pat : List Char) : List Char → Bool
  | [] => charsMatchAt pat []
  | b :: bs => charsMatchAt pat (b :: bs) || charsHaveSub pat bs

/-- Python `pat in s` (substring containment). -/
def strHasSub (s pat : String) : Bool :=
  charsHaveSub pat.data s.data

/-- Python `s.endswith(suffix)`. -/
def strEndsWithB (s suffix : String) : Bool :=
  charsMatchAt suffix.data.reverse s.data.reverse

/-- Python `str(v)` for a value interpolated into an f-string: strings are
taken verbatim, `None`/`True`/`False`/numbers use Python's rendering, and
containers use a `repr`-style rendering via `pyRepr`. -/
def pyRepr : JsonVal → String
  | .null => "None"
  | .bool true => "True"
  | .bool false => "False"
  | .num n => toString n
  | .str s => "'" ++ s ++ "'"
  | .arr xs => "[" ++ String.intercalate ", " (xs.attach.map (fun x => pyRepr x.1)) ++ "]"
  | .obj fs => "\x7b" ++
      String.intercalate ", " (fs.attach.map (fun f => "'" ++ f.1.1 ++ "': " ++ pyRepr f.1.2)) ++
      "\x7d"
decreasing_by
  · simp only [JsonVal.arr.sizeOf_spec]
    have := List.sizeOf_lt_of_mem x.2
    omega
  · simp only [JsonVal.obj.sizeOf_spec]
    have h1 := List.sizeOf_lt_of_mem f.2
    have h2 : sizeOf f.1.2 < sizeOf f.1 := by
      rcases f with ⟨⟨a, b⟩, hf⟩
      show sizeOf b < sizeOf (a, b)
      simp only [Prod.mk.sizeOf_spec]
      omega
    omega

/-- Python `str(v)` inside an f-string: a plain string renders without
quotes; everything else as `pyRepr`. -/
def pyFStr : JsonVal → String
  | .str s => s
  | v => pyRepr v

/-! ## `utils/btql_queries.py` -/

/-- `PROJECT_ID` constant from `btql_queries.py`. -/
def PROJECT_ID : String := "ec6cb39d-161d-4669-953f-444fd5c386f6"

/-- The HTTP response observed by `execute_btql_query`.
`content_type` models `response.headers.get('Content-Type', '')`;
`body` is the value `response.json()` parses to. -/
structure HttpResponse where
  status_code : Int
  content_type : String
  text : String
  body : JsonVal

/-- The failures `execute_btql_query` can raise, tagged by raise site and
carrying the exact message string built by the source. -/
inductive BtqlFailure where
  | valueError (msg : String)
  | queryFailed (msg : String)
  | badContentType (msg : String)

/-- The `error_preview` excerpt from `btql_queries.py` line 57:
`response.text[:200] if len(response.text) > 200 else response.text`. -/
def error_preview (text : String) : String :=
  if 200 < text.length then String.mk (text.data.take 200) else text

/-- Shallow embedding of `execute_btql_query` (`btql_queries.py` lines 19-70).
The network call is modelled by the `resp` argument; the second component of
the result counts HTTP requests issued (0 or 1), so that "fails before
issuing any request" is expressible. Raised exceptions become `Except.error`. -/
def execute_btql_query (api_key : Option String) (query : String) (resp : HttpResponse) :
    Except BtqlFailure JsonVal × Nat :=
  match api_key with
  | none => (.error (.valueError "BRAINTRUST_API_KEY environment variable not set"), 0)
  | some _ =>
    if resp.status_code ≠ 200 then
      (.error (.queryFailed
        ("BTQL query failed: " ++ toString resp.status_code ++ " - " ++
          error_preview resp.text ++ "...")), 1)
    else if !(strHasSub resp.content_type "application/json") then
      (.error (.badContentType
        ("Expected JSON response but got " ++ resp.content_type ++
          ". Response preview: " ++ String.mk (resp.text.data.take 200) ++ "...")), 1)
    else
      (.ok resp.body, 1)

/-- `build_model_filter` (`btql_queries.py` lines 73-95). -/
def build_model_filter : Option String → String
  | none => ""
  | some m =>
    if m = "mini" then "metadata.model LIKE '%mini%'"
    else if m = "NOT mini" then
      "metadata.model NOT LIKE '%mini%' AND metadata.model IS NOT NULL"
    else if m = "gpt-5" then "metadata.model LIKE '%gpt-5%'"
    else "metadata.model LIKE '%" ++ m ++ "%'"

/-- `build_additional_filters` (`btql_queries.py` lines 98-118). An empty
dict is falsy in Python, hence the `some []` case. -/
def build_additional_filters : Option PyDict → String
  | none => ""
  | some [] => ""
  | some filters =>
    String.intercalate " AND " (filters.map (fun fv =>
      match fv.2 with
      | .str s => fv.1 ++ " = '" ++ s ++ "'"
      | v => fv.1 ++ " = " ++ pyFStr v))

/-- The `filter_parts` construction of `build_fetch_logs_query`
(`btql_queries.py` lines 145-164), joined with `" AND "`. Clauses from
`build_model_filter` / `build_additional_filters` are appended only when
non-empty (Python truthiness). -/
def fetch_logs_filter_clause (model_filter : Option String)
    (hours_back exclude_first_hours : Int) (span_name_filter : String)
    (additional_filters : Option PyDict) : String :=
  let base : List String := [
    "span_attributes.name LIKE '%" ++ span_name_filter ++ "%'",
    "created < now() - interval " ++ toString exclude_first_hours ++ " hour",
    "created > now() - interval " ++ toString hours_back ++ " hour",
    "output IS NOT NULL",
    "output != ''",
    "metadata.userID IS NOT NULL"]
  let mfc := build_model_filter model_filter
  let withModel := base ++ (if mfc = "" then [] else [mfc])
  let afc := build_additional_filters additional_filters
  let allParts := withModel ++ (if afc = "" then [] else [afc])
  String.intercalate " AND " allParts

/-- `build_fetch_logs_query` (`btql_queries.py` lines 121-173). -/
def build_fetch_logs_query (model_filter : Option String)
    (hours_back exclude_first_hours : Int) (span_name_filter : String)
    (additional_filters : Option PyDict) (limit : Int) : String :=
  let select_clause :=
    "input, output, metadata.model, metadata.userID, created, id, span_attributes.name"
  "from: project_logs('" ++ PROJECT_ID ++ "')" ++
    "\nselect: " ++ select_clause ++
    "\nfilter: " ++
      fetch_logs_filter_clause model_filter hours_back exclude_first_hours
        span_name_filter additional_filters ++
    "\nlimit: " ++ toString limit

/-- Python `msg.get("role") == "system"`: true only when the value is the
string "system" (any other type compares unequal to a Python `str`). -/
def role_is_system (m : JsonVal) : Bool :=
  match m.getField "role" with
  | some (.str s) => s == "system"
  | _ => false

/-- The filter predicate in `format_log_records` (`btql_queries.py` line 198):
keep `msg` iff `isinstance(msg, dict) and msg.get("role") != "system"`. -/
def keep_message (m : JsonVal) : Bool :=
  m.isObj && !(role_is_system m)

/-- The per-record body of the `format_log_records` loop
(`btql_queries.py` lines 189-215). -/
def format_one_record (record : PyDict) : JsonVal :=
  let raw_input := pyGetV record "input"
  let filtered_input : JsonVal :=
    match raw_input with
    | .arr msgs => .arr (msgs.filter keep_message)
    | other => other
  let metadata := pyGetV record "metadata"
  let user_id0 := pyGetV record "userID"
  let user_id :=
    if user_id0.isNull && metadata.isObj then pyGetV metadata.asObj "userID" else user_id0
  let model :=
    if metadata.isObj then pyGetV metadata.asObj "model" else pyGetV record "model"
  let span_attrs := pyGetV record "span_attributes"
  let span_name :=
    if span_attrs.isObj then pyGetV span_attrs.asObj "name" else JsonVal.null
  let metadata_out :=
    match pyGet record "metadata" with
    | none => JsonVal.obj []
    | some v => v
  JsonVal.obj [
    ("id", pyGetV record "id"),
    ("user_id", user_id),
    ("input", filtered_input),
    ("output", pyGetV record "output"),
    ("model", model),
    ("created", pyGetV record "created"),
    ("span_name", span_name),
    ("metadata", metadata_out)]

/-- `format_log_records` (`btql_queries.py` lines 176-217): the loop appends
one formatted record per raw record, in order, i.e. a `map`. The function is
total: a missing field degrades to `null` rather than raising. -/
def format_log_records (records : List PyDict) : List JsonVal :=
  records.map format_one_record

/-! ## `server.py`: the file store and paginated reader -/

/-- The local disk: a map from filename to the parsed JSON document stored
there (`none` = no such file). Files written by this system are always
parseable JSON, so file contents are modelled as parsed `JsonVal`s. -/
abbrev FileSys := String → Option JsonVal

/-- The `batch_info` dict of a successful `read_logs_from_file` call
(`server.py` lines 555-561). -/
structure BatchInfo where
  start_index : Nat
  end_index : Nat
  count_returned : Nat
  total_records : Nat
  filename : String

/-- The result dict of `read_logs_from_file`. Keys that a branch does not
emit are `none`: the error payloads carry no `has_more`/`next_start_index`
and an empty `batch_info`. `next_start_index = none` also models an emitted
JSON `null` (Python `None`), as in the final-page case. -/
structure ReadResult where
  error : Option String
  records : JsonVal
  batch_info : Option BatchInfo
  has_more : Option Bool
  next_start_index : Option Nat

/-- Shallow embedding of `read_logs_from_file` (`server.py` lines 502-571)
for non-negative `start_index`/`count`. Notes on branches the claims never
exercise: a non-dict top-level document makes `data.get` raise
`AttributeError`, caught by the enclosing `try` into the generic error
payload; a `records` value on which Python `len`/slicing raises
(`null`, number, boolean, object) likewise becomes the error payload, whose
exact exception text is abbreviated here as "TypeError"; a string `records`
value is sliced as a string, exactly as Python would. A Python slice
`l[start:end]` with `0 ≤ start` is `(l.drop start).take (end - start)`. -/
def read_logs_from_file (fs : FileSys) (filename : String)
    (start_index : Nat) (count : Nat) : ReadResult :=
  match fs filename with
  | none =>
    { error := some ("File not found: " ++ filename), records := .arr [],
      batch_info := none, has_more := none, next_start_index := none }
  | some data =>
    match data with
    | .obj fields =>
      let stored := match pyGet fields "records" with
        | none => some (JsonVal.arr [])
        | some (.arr xs) => some (JsonVal.arr xs)
        | some (.str s) => some (JsonVal.str s)
        | some _ => none
      match stored with
      | some (.arr all_records) =>
        let total_records := all_records.length
        let c := min count 50
        let end_index := min (start_index + c) total_records
        let batch := (all_records.drop start_index).take (end_index - start_index)
        let bi : BatchInfo :=
          { start_index := start_index
            end_index := end_index
            count_returned := batch.length
            total_records := total_records
            filename := filename }
        { error := none, records := .arr batch, batch_info := some bi,
          has_more := some (decide (end_index < total_records)),
          next_start_index := if end_index < total_records then some end_index else none }
      | some (.str s) =>
        let total_records := s.length
        let c := min count 50
        let end_index := min (start_index + c) total_records
        let batch := (s.data.drop start_index).take (end_index - start_index)
        let bi : BatchInfo :=
          { start_index := start_index
            end_index := end_index
            count_returned := batch.length
            total_records := total_records
            filename := filename }
        { error := none, records := .str (String.mk batch), batch_info := some bi,
          has_more := some (decide (end_index < total_records)),
          next_start_index := if end_index < total_records then some end_index else none }
      | _ =>
        { error := some "TypeError", records := .arr [],
          batch_info := none, has_more := none, next_start_index := none }
    | _ =>
      { error := some "AttributeError", records := .arr [],
        batch_info := none, has_more := none, next_start_index := none }

/-! ## `server.py`: `fetch_logs` -/

/-- The `sampling_info` dict of the full (non-saving) `fetch_logs` response
and of the saved dataset document (`server.py` lines 367-374). -/
structure FullSampling where
  requested : Int
  returned : Nat
  date_range_hours : String
  model_filter : Option String
  pagination_note : Option String
  retries : Option Nat

/-- The saved dataset document `full_data` (`server.py` lines 362-375). -/
structure FullData where
  query_executed : String
  sample_size : Int
  total_available : Nat
  records : List JsonVal
  sampling_info : FullSampling

/-- The reduced `sampling_info` of the minimal auto-save response
(`server.py` lines 391-396). -/
structure SavedSampling where
  requested : Int
  returned : Nat
  model_filter : Option String
  retries : Option Nat

/-- The `sampling_info` of the `fetch_logs` error payload
(`server.py` lines 432-437). -/
structure ErrSampling where
  requested : Int
  returned : Nat
  error : String
  retries_attempted : Nat

/-- JSON rendering of an optional string (Python `None` → `null`). -/
def optStr : Option String → JsonVal
  | none => .null
  | some s => .str s

/-- JSON rendering of an optional count (Python `None` → `null`). -/
def optNat : Option Nat → JsonVal
  | none => .null
  | some n => .num n

/-- The JSON document `json.dump` writes for a `full_data` sampling_info. -/
def FullSampling.toJson (si : FullSampling) : JsonVal :=
  .obj [
    ("requested", .num si.requested),
    ("returned", .num si.returned),
    ("date_range_hours", .str si.date_range_hours),
    ("model_filter", optStr si.model_filter),
    ("pagination_note", optStr si.pagination_note),
    ("retries", optNat si.retries)]

/-- The JSON document `json.dump` writes for `full_data`
(`server.py` lines 377-380). -/
def FullData.toJson (d : FullData) : JsonVal :=
  .obj [
    ("query_executed", .str d.query_executed),
    ("sample_size", .num d.sample_size),
    ("total_available", .num d.total_available),
    ("records", .arr d.records),
    ("sampling_info", d.sampling_info.toJson)]

/-- The three shapes of dict `fetch_logs` returns: the minimal auto-save
summary (`server.py` lines 385-398; the `status`/`message` strings are kept,
the absolute path and on-disk byte size are filesystem details outside the
embedding), the full data dict when saving is disabled (lines 402-415), and
the error payload after the retry loop ends in failure (lines 427-438). -/
inductive FetchOutcome where
  | saved (status : String) (filename : String) (record_count : Nat)
      (sampling_info : SavedSampling) (message : String)
  | full (data : FullData)
  | failed (error : String) (query_executed : String) (sample_size : Int)
      (records : List JsonVal) (sampling_info : ErrSampling)

/-- A complete `fetch_logs` run: the returned dict, the disk afterwards, and
the number of `time.sleep(1)` calls (1-time-unit pauses) performed. -/
structure FetchRun where
  outcome : FetchOutcome
  fs : FileSys
  sleeps : Nat

/-- Filename resolution in `fetch_logs` (`server.py` lines 352-359): default
`logs_<model|all>_<timestamp>.json` (an empty `model_filter` string is falsy,
hence "all"), then append `.json` unless already present. -/
def resolve_filename (model_filter : Option String) (filename : Option String)
    (timestamp : String) : String :=
  let fname := match filename with
    | none =>
      let model_str := match model_filter with
        | some m => if m = "" then "all" else m
        | none => "all"
      "logs_" ++ model_str ++ "_" ++ timestamp ++ ".json"
    | some f => f
  if strEndsWithB fname ".json" then fname else fname ++ ".json"

/-- The retry loop of `fetch_logs` (`server.py` lines 336-424) with
`max_retries = 3`. `execData attempt` models
`execute_btql_query(query).get("data", [])` on that attempt (the claims only
concern list-shaped `data` values); `Except.error e` models a raised
exception with `str(e) = e`. On success the result carries the records and
the successful attempt index; on failure it carries `last_error`. The second
component counts `time.sleep(1)` calls, one before each re-attempt. The
recursion guard `attempt < 3 - 1` is the source's
`"500" in last_error and attempt < max_retries - 1`. -/
def fetch_retry_loop (execData : Nat → Except String (List PyDict))
    (attempt : Nat) (sleeps : Nat) : Except String (List PyDict × Nat) × Nat :=
  match execData attempt with
  | .ok recs => (.ok (recs, attempt), sleeps)
  | .error e =>
    if h : strHasSub e "500" = true ∧ attempt < 3 - 1 then
      fetch_retry_loop execData (attempt + 1) (sleeps + 1)
    else
      (.error e, sleeps)
termination_by 3 - attempt
decreasing_by omega

/-- Shallow embedding of `fetch_logs` (`server.py` lines 281-438).
`execData` and `timestamp` are the network and clock oracles; `fs` is the
disk before the call. A failed run returns the structured error payload with
an empty `records` list (line 427-438) — nothing is raised to the caller. -/
def fetch_logs (execData : Nat → Except String (List PyDict)) (timestamp : String)
    (fs : FileSys) (model_filter : Option String) (sample_size : Int)
    (hours_back : Int) (exclude_first_hours : Int) (span_name_filter : String)
    (additional_filters : Option PyDict) (auto_save_to_file : Bool)
    (filename : Option String) : FetchRun :=
  let actual_limit : Int := if sample_size > 250 then 250 else sample_size
  let pagination_note : Option String :=
    if sample_size > 250 then
      some ("Requested " ++ toString sample_size ++
        " but limited to 250. Pagination not yet implemented.")
    else none
  let query := build_fetch_logs_query model_filter hours_back exclude_first_hours
    span_name_filter additional_filters actual_limit
  match fetch_retry_loop execData 0 0 with
  | (Except.ok (records, attempt), sleeps) =>
    let formatted_records := format_log_records records
    let date_range := toString hours_back ++ " hours back, excluding first " ++
      toString exclude_first_hours ++ " hour(s)"
    let retries : Option Nat := if attempt > 0 then some attempt else none
    let full_data : FullData := {
      query_executed := query,
      sample_size := sample_size,
      total_available := records.length,
      records := formatted_records,
      sampling_info := {
        requested := sample_size,
        returned := formatted_records.length,
        date_range_hours := date_range,
        model_filter := model_filter,
        pagination_note := pagination_note,
        retries := retries } }
    if auto_save_to_file then
      let fname := resolve_filename model_filter filename timestamp
      let fsNew : FileSys := fun n => if n = fname then some full_data.toJson else fs n
      { outcome := FetchOutcome.saved "success" fname formatted_records.length
          { requested := sample_size, returned := formatted_records.length,
            model_filter := model_filter, retries := retries }
          ("Saved " ++ toString formatted_records.length ++ " logs to " ++ fname ++
            ". Use read_logs_from_file('" ++ fname ++ "') to analyze."),
        fs := fsNew, sleeps := sleeps }
    else
      { outcome := FetchOutcome.full full_data, fs := fs, sleeps := sleeps }
  | (Except.error last_error, sleeps) =>
    { outcome := FetchOutcome.failed last_error query sample_size []
        { requested := sample_size, returned := 0, error := last_error,
          retries_attempted := 3 - 1 },
      fs := fs, sleeps := sleeps }

/-! ## Auxiliary definitions for the claims -/

/-- The named field of the record `format_log_records` produces for a single
raw record. -/
def formatted_field (record : PyDict) (k : String) : Option JsonVal :=
  (format_log_records [record]).headI.getField k

/-- Modelled from the spec claim C6: resolve `model` preferring the nested
metadata value and falling back to the top-level `model` field when the
metadata value is absent. -/
def spec_model_resolution (record : PyDict) : JsonVal :=
  let fromMeta := match pyGet record "metadata" with
    | some (.obj m) => pyGet m "model"
    | _ => none
  match fromMeta with
  | some v => v
  | none => pyGetV record "model"

/-- A raw record whose metadata object lacks `model` but which carries a
top-level `model` field. -/
def c6_record : PyDict := [("metadata", JsonVal.obj []), ("model", JsonVal.str "gpt-5")]

/-- Modelled from the spec claim C7: drop exactly the messages whose role
equals "system" and keep every other message. -/
def spec_filter_messages (msgs : List JsonVal) : List JsonVal :=
  msgs.filter (fun m => !(role_is_system m))

/-- An input list holding a bare string next to an ordinary user message. -/
def c7_messages : List JsonVal :=
  [JsonVal.str "hi", JsonVal.obj [("role", JsonVal.str "user")]]

/-- A raw record whose `input` list contains a non-dict entry. -/
def c7_record : PyDict := [("input", JsonVal.arr c7_messages)]

/-- A backend reply of 51 records, below the 250-record limit but above the
reader's 50-record clamp. -/
def c1_raw : List PyDict := List.replicate 51 [("id", JsonVal.str "x")]

/-- A `fetch_logs` run that saves those 51 records to `d.json`. -/
def c1_run : FetchRun :=
  fetch_logs (fun _ => Except.ok c1_raw) "t" (fun _ => none) none 150 48 1 "chat" none
    true (some "d.json")

/-! ## Shared lemmas -/

/-- Unfolding lemma: `read_logs_from_file` on a well-formed dataset file
(a JSON object whose `records` field is a list) returns the clamped slice
together with its batch metadata. -/
theorem read_logs_from_file_wellformed (fs : FileSys) (filename : String)
    (fields : PyDict) (recs : List JsonVal) (k c : Nat)
    (hfs : fs filename = some (JsonVal.obj fields))
    (hrec : pyGet fields "records" = some (JsonVal.arr recs)) :
    read_logs_from_file fs filename k c =
      { error := none
        records := JsonVal.arr ((recs.drop k).take (min (k + min c 50) recs.length - k))
        batch_info := some
          { start_index := k
            end_index := min (k + min c 50) recs.length
            count_returned := ((recs.drop k).take (min (k + min c 50) recs.length - k)).length
            total_records := recs.length
            filename := filename }
        has_more := some (decide (min (k + min c 50) recs.length < recs.length))
        next_start_index :=
          if min (k + min c 50) recs.length < recs.length
          then some (min (k + min c 50) recs.length) else none } := by
  simp only [read_logs_from_file, hfs, hrec]

/-- Step lemma: a successful attempt ends the retry loop with that attempt's
records and index. -/
theorem fetch_retry_loop_ok (execData : Nat → Except String (List PyDict))
    (attempt sleeps : Nat) (recs : List PyDict)
    (he : execData attempt = .ok recs) :
    fetch_retry_loop execData attempt sleeps = (.ok (recs, attempt), sleeps) := by
  unfold fetch_retry_loop
  rw [he]

/-- Step lemma: a failed attempt whose message contains "500", before the
last attempt, sleeps once and retries. -/
theorem fetch_retry_loop_retry (execData : Nat → Except String (List PyDict))
    (attempt sleeps : Nat) (e : String)
    (he : execData attempt = .error e) (h5 : strHasSub e "500" = true)
    (ha : attempt < 3 - 1) :
    fetch_retry_loop execData attempt sleeps
      = fetch_retry_loop execData (attempt + 1) (sleeps + 1) := by
  conv_lhs => rw [fetch_retry_loop]
  rw [he]
  exact dif_pos ⟨h5, ha⟩

/-- Step lemma: a failed attempt that is not eligible for retry (no "500"
in the message, or the last attempt) ends the loop with that error. -/
theorem fetch_retry_loop_stop (execData : Nat → Except String (List PyDict))
    (attempt sleeps : Nat) (e : String)
    (he : execData attempt = .error e)
    (h : ¬(strHasSub e "500" = true ∧ attempt < 3 - 1)) :
    fetch_retry_loop execData attempt sleeps = (.error e, sleeps) := by
  conv_lhs => rw [fetch_retry_loop]
  rw [he]
  exact dif_neg h

/-! ## Claims -/

/-- C2: for every well-formed dataset file whose records list has length `N`,
and every start `k ≥ 0` and requested count `c`,
`read_logs_from_file(filename, k, c)` returns exactly the slice
`records[k : min(k + min(c, 50), N)]` (for `k ≥ 0` the Python slice
`l[k:e]` is `(l.drop k).take (e - k)`), its `has_more` flag is true iff
`min(k + min(c, 50), N) < N`, `next_start_index` equals that end index
exactly when `has_more` is true, and any `c > 50` behaves as `c = 50`. -/
theorem C2_pagination (fs : FileSys) (filename : String) (fields : PyDict)
    (recs : List JsonVal) (k c : Nat)
    (hfs : fs filename = some (JsonVal.obj fields))
    (hrec : pyGet fields "records" = some (JsonVal.arr recs)) :
    (read_logs_from_file fs filename k c).records
        = JsonVal.arr ((recs.drop k).take (min (k + min c 50) recs.length - k))
    ∧ (read_logs_from_file fs filename k c).error = none
    ∧ ((read_logs_from_file fs filename k c).has_more = some true
        ↔ min (k + min c 50) recs.length < recs.length)
    ∧ (min (k + min c 50) recs.length < recs.length →
        (read_logs_from_file fs filename k c).next_start_index
          = some (min (k + min c 50) recs.length))
    ∧ (¬ min (k + min c 50) recs.length < recs.length →
        (read_logs_from_file fs filename k c).next_start_index = none)
    ∧ (50 < c →
        read_logs_from_file fs filename k c = read_logs_from_file fs filename k 50) := by
  rw [read_logs_from_file_wellformed fs filename fields recs k c hfs hrec]
  refine ⟨rfl, rfl, by simp, fun h => by simp [h], fun h => by simp [h], fun h => ?_⟩
  rw [read_logs_from_file_wellformed fs filename fields recs k 50 hfs hrec]
  have hmin : min c 50 = 50 := Nat.min_eq_right (Nat.le_of_lt h)
  simp [hmin]

/-- Witness for C2 at a concrete three-record dataset, `k = 1`, `c = 60`. -/
theorem C2_pagination_witness :
    (fun n => if n = "a.json"
        then some (JsonVal.obj [("records",
          JsonVal.arr [JsonVal.num 0, JsonVal.num 1, JsonVal.num 2])])
        else none : FileSys) "a.json"
      = some (JsonVal.obj [("records",
          JsonVal.arr [JsonVal.num 0, JsonVal.num 1, JsonVal.num 2])])
    ∧ (read_logs_from_file
        (fun n => if n = "a.json"
          then some (JsonVal.obj [("records",
            JsonVal.arr [JsonVal.num 0, JsonVal.num 1, JsonVal.num 2])])
          else none) "a.json" 1 60).records
      = JsonVal.arr (([JsonVal.num 0, JsonVal.num 1, JsonVal.num 2].drop 1).take
          (min (1 + min 60 50) 3 - 1)) :=
  ⟨by simp, (C2_pagination
      (fun n => if n = "a.json"
        then some (JsonVal.obj [("records",
          JsonVal.arr [JsonVal.num 0, JsonVal.num 1, JsonVal.num 2])])
        else none)
      "a.json"
      [("records", JsonVal.arr [JsonVal.num 0, JsonVal.num 1, JsonVal.num 2])]
      [JsonVal.num 0, JsonVal.num 1, JsonVal.num 2]
      1 60 (by simp) (by simp [pyGet])).1⟩

/-- C9: reading a filename whose path does not exist returns an error
payload with an empty records sequence (the whole body runs inside
`try/except`, so nothing is raised to the caller; in the embedding the
reader is a total function). -/
theorem C9_missing_file (fs : FileSys) (filename : String) (k c : Nat)
    (h : fs filename = none) :
    read_logs_from_file fs filename k c =
      { error := some ("File not found: " ++ filename), records := JsonVal.arr [],
        batch_info := none, has_more := none, next_start_index := none } := by
  simp only [read_logs_from_file, h]

/-- Witness for C9 on an empty disk. -/
theorem C9_missing_file_witness :
    ((fun _ => none : FileSys) "gone.json" = none)
    ∧ read_logs_from_file (fun _ => none) "gone.json" 0 10 =
        { error := some ("File not found: " ++ "gone.json"), records := JsonVal.arr [],
          batch_info := none, has_more := none, next_start_index := none } :=
  ⟨rfl, C9_missing_file (fun _ => none) "gone.json" 0 10 rfl⟩

/-- C10: on a well-formed dataset of `N` records, every read with
`start_index ≥ N` returns an empty batch with `count_returned = 0`, no
error, `has_more = false` and `next_start_index = null` — indistinguishable
from a final empty page. -/
theorem C10_past_the_end (fs : FileSys) (filename : String) (fields : PyDict)
    (recs : List JsonVal) (k c : Nat)
    (hfs : fs filename = some (JsonVal.obj fields))
    (hrec : pyGet fields "records" = some (JsonVal.arr recs))
    (hk : recs.length ≤ k) :
    read_logs_from_file fs filename k c =
      { error := none, records := JsonVal.arr []
        batch_info := some
          { start_index := k, end_index := recs.length, count_returned := 0,
            total_records := recs.length, filename := filename }
        has_more := some false, next_start_index := none } := by
  rw [read_logs_from_file_wellformed fs filename fields recs k c hfs hrec]
  have he : min (k + min c 50) recs.length = recs.length :=
    Nat.min_eq_right (Nat.le_trans hk (Nat.le_add_right k (min c 50)))
  have hdrop : recs.drop k = [] := List.drop_eq_nil_of_le hk
  simp [he, hdrop]

/-- Witness for C10: reading from index 5 of a two-record dataset. -/
theorem C10_past_the_end_witness :
    ((fun n => if n = "a.json"
        then some (JsonVal.obj [("records", JsonVal.arr [JsonVal.null, JsonVal.null])])
        else none : FileSys) "a.json"
      = some (JsonVal.obj [("records", JsonVal.arr [JsonVal.null, JsonVal.null])]))
    ∧ ([JsonVal.null, JsonVal.null].length ≤ 5)
    ∧ read_logs_from_file
        (fun n => if n = "a.json"
          then some (JsonVal.obj [("records", JsonVal.arr [JsonVal.null, JsonVal.null])])
          else none) "a.json" 5 10 =
      { error := none, records := JsonVal.arr []
        batch_info := some
          { start_index := 5, end_index := 2, count_returned := 0,
            total_records := 2, filename := "a.json" }
        has_more := some false, next_start_index := none } :=
  ⟨by simp, by simp,
    C10_past_the_end
      (fun n => if n = "a.json"
        then some (JsonVal.obj [("records", JsonVal.arr [JsonVal.null, JsonVal.null])])
        else none)
      "a.json"
      [("records", JsonVal.arr [JsonVal.null, JsonVal.null])]
      [JsonVal.null, JsonVal.null] 5 10
      (by simp) (by simp [pyGet]) (by simp)⟩

/-- C4: `build_model_filter "mini"` contains `model LIKE '%mini%'`;
`build_model_filter "NOT mini"` contains both `NOT LIKE '%mini%'` and
`IS NOT NULL`; with `model_filter = None` the rendered query's filter
clause (here at the default parameters: span filter "chat", 48 hours back,
1 hour excluded, no additional filters) contains no model predicate; and
any other non-empty string `s` yields exactly
`metadata.model LIKE '%s%'` with `s` interpolated unescaped. -/
theorem C4_model_filter (s : String) :
    strHasSub (build_model_filter (some "mini")) "model LIKE '%mini%'" = true
    ∧ strHasSub (build_model_filter (some "NOT mini")) "NOT LIKE '%mini%'" = true
    ∧ strHasSub (build_model_filter (some "NOT mini")) "IS NOT NULL" = true
    ∧ build_model_filter none = ""
    ∧ strHasSub (fetch_logs_filter_clause none 48 1 "chat" none) "metadata.model" = false
    ∧ (s ≠ "" → s ≠ "mini" → s ≠ "NOT mini" → s ≠ "gpt-5" →
        build_model_filter (some s) = "metadata.model LIKE '%" ++ s ++ "%'") := by
  refine ⟨by decide, by decide, by decide, rfl, by decide, fun _ h1 h2 h3 => ?_⟩
  simp [build_model_filter, h1, h2, h3]

/-- Witness for C4 at the custom substring "turbo". -/
theorem C4_model_filter_witness :
    ("turbo" : String) ≠ "" ∧ ("turbo" : String) ≠ "mini"
    ∧ ("turbo" : String) ≠ "NOT mini" ∧ ("turbo" : String) ≠ "gpt-5"
    ∧ build_model_filter (some "turbo") = "metadata.model LIKE '%" ++ "turbo" ++ "%'" :=
  ⟨by decide, by decide, by decide, by decide,
    (C4_model_filter "turbo").2.2.2.2.2 (by decide) (by decide) (by decide) (by decide)⟩

/-- C5: `execute_btql_query` fails with the configuration `ValueError`
before issuing any request (request count 0) when no API credential is
configured; with a credential it issues one request and fails with the
backend-query error carrying a `≤ 200`-character body excerpt when the
status is not 200; it fails with the content-type error when the 200
response's Content-Type does not contain `application/json`; otherwise it
returns the parsed JSON body. -/
theorem C5_executor (k q : String) (resp : HttpResponse) :
    execute_btql_query none q resp
      = (.error (.valueError "BRAINTRUST_API_KEY environment variable not set"), 0)
    ∧ (resp.status_code ≠ 200 →
        execute_btql_query (some k) q resp
          = (.error (.queryFailed ("BTQL query failed: " ++ toString resp.status_code ++
              " - " ++ error_preview resp.text ++ "...")), 1)
        ∧ (error_preview resp.text).length ≤ 200)
    ∧ (resp.status_code = 200 → strHasSub resp.content_type "application/json" = false →
        execute_btql_query (some k) q resp
          = (.error (.badContentType ("Expected JSON response but got " ++
              resp.content_type ++ ". Response preview: " ++
              String.mk (resp.text.data.take 200) ++ "...")), 1))
    ∧ (resp.status_code = 200 → strHasSub resp.content_type "application/json" = true →
        execute_btql_query (some k) q resp = (.ok resp.body, 1)) := by
  refine ⟨rfl, fun h => ⟨?_, ?_⟩, fun h1 h2 => ?_, fun h1 h2 => ?_⟩
  · simp [execute_btql_query, h]
  · unfold error_preview
    split
    · show (resp.text.data.take 200).length ≤ 200
      rw [List.length_take]
      omega
    · omega
  · simp [execute_btql_query, h1, h2]
  · simp [execute_btql_query, h1, h2]

/-- Witness for C5 on a concrete non-200 HTML response. -/
theorem C5_executor_witness :
    (({ status_code := 500, content_type := "text/html", text := "boom",
        body := JsonVal.null } : HttpResponse).status_code ≠ 200)
    ∧ execute_btql_query (some "key") "q"
        { status_code := 500, content_type := "text/html", text := "boom",
          body := JsonVal.null }
      = (.error (.queryFailed ("BTQL query failed: " ++ toString (500 : Int) ++
          " - " ++ error_preview "boom" ++ "...")), 1)
    ∧ (error_preview "boom").length ≤ 200 :=
  ⟨by decide,
    (C5_executor "key" "q"
      { status_code := 500, content_type := "text/html", text := "boom",
        body := JsonVal.null }).2.1 (by decide) |>.1,
    (C5_executor "key" "q"
      { status_code := 500, content_type := "text/html", text := "boom",
        body := JsonVal.null }).2.1 (by decide) |>.2⟩

/-- C6 fails on the code: for a record whose metadata is an object without a
`model` entry, the formatter emits `null` and does not fall back to the
top-level `model` field, contrary to the claimed resolution rule. -/
theorem C6_counterexample :
    formatted_field c6_record "model" = some JsonVal.null
    ∧ spec_model_resolution c6_record = JsonVal.str "gpt-5"
    ∧ formatted_field c6_record "model" ≠ some (spec_model_resolution c6_record) := by
  refine ⟨?_, rfl, ?_⟩
  · simp [formatted_field, format_log_records, format_one_record, JsonVal.getField,
      pyGet, pyGetV, c6_record, JsonVal.isObj, JsonVal.asObj, JsonVal.isNull, keep_message]
  · intro h
    have h1 : formatted_field c6_record "model" = some JsonVal.null := by
      simp [formatted_field, format_log_records, format_one_record, JsonVal.getField,
        pyGet, pyGetV, c6_record, JsonVal.isObj, JsonVal.asObj, JsonVal.isNull, keep_message]
    rw [h1] at h
    simp [spec_model_resolution, c6_record, pyGet, pyGetV] at h

/-- C6 amended: the formatter resolves `model` from the metadata object
whenever `metadata` is an object (even when the object lacks `model`, in
which case the result is `null` with no fallback), and falls back to the
top-level `model` field only when `metadata` is absent or not an object. -/
theorem C6_model_resolution (record : PyDict) (m : PyDict) :
    (pyGetV record "metadata" = JsonVal.obj m →
      formatted_field record "model" = some (pyGetV m "model"))
    ∧ ((pyGetV record "metadata").isObj = false →
      formatted_field record "model" = some (pyGetV record "model")) := by
  constructor
  · intro h
    simp [formatted_field, format_log_records, format_one_record, JsonVal.getField,
      pyGet, h, JsonVal.isObj, JsonVal.asObj]
  · intro h
    simp [formatted_field, format_log_records, format_one_record, JsonVal.getField,
      pyGet, h]

/-- Witness for C6 amended: a record whose metadata carries a model. -/
theorem C6_model_resolution_witness :
    pyGetV [("metadata", JsonVal.obj [("model", JsonVal.str "m1")])] "metadata"
      = JsonVal.obj [("model", JsonVal.str "m1")]
    ∧ formatted_field [("metadata", JsonVal.obj [("model", JsonVal.str "m1")])] "model"
      = some (pyGetV [("model", JsonVal.str "m1")] "model") :=
  ⟨by simp [pyGetV, pyGet],
    (C6_model_resolution [("metadata", JsonVal.obj [("model", JsonVal.str "m1")])]
      [("model", JsonVal.str "m1")]).1 (by simp [pyGetV, pyGet])⟩

/-- C7 fails on the code: the formatter also drops input entries that are
not dicts (here the bare string "hi", whose role is not "system"), so it
does not drop exactly the system-role messages. -/
theorem C7_counterexample :
    formatted_field c7_record "input"
      = some (JsonVal.arr [JsonVal.obj [("role", JsonVal.str "user")]])
    ∧ spec_filter_messages c7_messages = c7_messages
    ∧ formatted_field c7_record "input" ≠ some (JsonVal.arr (spec_filter_messages c7_messages)) := by
  refine ⟨?_, rfl, ?_⟩
  · simp [formatted_field, format_log_records, format_one_record, JsonVal.getField,
      pyGet, pyGetV, c7_record, c7_messages, JsonVal.isObj, JsonVal.asObj, JsonVal.isNull,
      keep_message, role_is_system]
  · intro h
    have h1 : formatted_field c7_record "input"
        = some (JsonVal.arr [JsonVal.obj [("role", JsonVal.str "user")]]) := by
      simp [formatted_field, format_log_records, format_one_record, JsonVal.getField,
        pyGet, pyGetV, c7_record, c7_messages, JsonVal.isObj, JsonVal.asObj, JsonVal.isNull,
        keep_message, role_is_system]
    rw [h1] at h
    simp [spec_filter_messages, c7_messages, role_is_system, JsonVal.getField, pyGet] at h

/-- C7 amended: the formatter keeps exactly the input messages that are
dicts and whose role is not "system" (`keep_message`), preserving their
order (the kept list is a sublist of the input); one formatted record is
produced per raw record, in order (the formatter is a total function, so a
malformed record degrades rather than raising); and a record with
`metadata.userID` set and an absent (or null) top-level `userID` resolves
`user_id` to the metadata value. -/
theorem C7_formatter (record : PyDict) (msgs : List JsonVal) (meta : PyDict) :
    (∀ rs : List PyDict, (format_log_records rs).length = rs.length)
    ∧ (pyGetV record "input" = JsonVal.arr msgs →
        formatted_field record "input" = some (JsonVal.arr (msgs.filter keep_message)))
    ∧ (msgs.filter keep_message).Sublist msgs
    ∧ ((pyGetV record "userID").isNull = true →
        pyGetV record "metadata" = JsonVal.obj meta →
        formatted_field record "user_id" = some (pyGetV meta "userID")) := by
  refine ⟨fun rs => by simp [format_log_records], fun h => ?_,
    List.filter_sublist msgs, fun h1 h2 => ?_⟩
  · simp [formatted_field, format_log_records, format_one_record, JsonVal.getField,
      pyGet, h]
  · simp [formatted_field, format_log_records, format_one_record, JsonVal.getField,
      pyGet, h1, h2, JsonVal.isObj, JsonVal.asObj]

/-- Witness for C7 amended: a two-message input with one system message, and
a metadata-only user id. -/
theorem C7_formatter_witness :
    pyGetV [("input", JsonVal.arr
        [JsonVal.obj [("role", JsonVal.str "system")],
         JsonVal.obj [("role", JsonVal.str "user")]]),
      ("metadata", JsonVal.obj [("userID", JsonVal.str "u1")])] "input"
      = JsonVal.arr
        [JsonVal.obj [("role", JsonVal.str "system")],
         JsonVal.obj [("role", JsonVal.str "user")]]
    ∧ formatted_field [("input", JsonVal.arr
        [JsonVal.obj [("role", JsonVal.str "system")],
         JsonVal.obj [("role", JsonVal.str "user")]]),
      ("metadata", JsonVal.obj [("userID", JsonVal.str "u1")])] "input"
      = some (JsonVal.arr
          ([JsonVal.obj [("role", JsonVal.str "system")],
            JsonVal.obj [("role", JsonVal.str "user")]].filter keep_message))
    ∧ formatted_field [("input", JsonVal.arr
        [JsonVal.obj [("role", JsonVal.str "system")],
         JsonVal.obj [("role", JsonVal.str "user")]]),
      ("metadata", JsonVal.obj [("userID", JsonVal.str "u1")])] "user_id"
      = some (pyGetV [("userID", JsonVal.str "u1")] "userID") :=
  ⟨by simp [pyGetV, pyGet],
    (C7_formatter [("input", JsonVal.arr
        [JsonVal.obj [("role", JsonVal.str "system")],
         JsonVal.obj [("role", JsonVal.str "user")]]),
      ("metadata", JsonVal.obj [("userID", JsonVal.str "u1")])]
      [JsonVal.obj [("role", JsonVal.str "system")],
       JsonVal.obj [("role", JsonVal.str "user")]]
      [("userID", JsonVal.str "u1")]).2.1 (by simp [pyGetV, pyGet]),
    (C7_formatter [("input", JsonVal.arr
        [JsonVal.obj [("role", JsonVal.str "system")],
         JsonVal.obj [("role", JsonVal.str "user")]]),
      ("metadata", JsonVal.obj [("userID", JsonVal.str "u1")])]
      [JsonVal.obj [("role", JsonVal.str "system")],
       JsonVal.obj [("role", JsonVal.str "user")]]
      [("userID", JsonVal.str "u1")]).2.2.2
      (by simp [pyGetV, pyGet, JsonVal.isNull]) (by simp [pyGetV, pyGet])⟩

/-- C3: when every attempt fails with a message containing "500", the query
is retried 2 additional times (3 attempts total: the surfaced error is the
third attempt's message) with a 1-time-unit pause between attempts (2
`time.sleep(1)` calls); when the first attempt fails with a message not
containing "500", no retry and no pause happen, and in both cases the
result is the structured error payload with empty `records` — returned,
not raised (the embedding returns it as an ordinary value). -/
theorem C3_retry_policy (execData : Nat → Except String (List PyDict))
    (timestamp : String) (fs : FileSys) (mf : Option String) (ss hb efh : Int)
    (snf : String) (af : Option PyDict) (asv : Bool) (fname : Option String)
    (msgs : Nat → String) (m : String) :
    ((∀ i, i < 3 → execData i = Except.error (msgs i) ∧ strHasSub (msgs i) "500" = true) →
      fetch_logs execData timestamp fs mf ss hb efh snf af asv fname =
        { outcome := FetchOutcome.failed (msgs 2)
            (build_fetch_logs_query mf hb efh snf af (if ss > 250 then 250 else ss)) ss []
            { requested := ss, returned := 0, error := msgs 2, retries_attempted := 3 - 1 }
          fs := fs
          sleeps := 2 })
    ∧ (execData 0 = Except.error m → strHasSub m "500" = false →
      fetch_logs execData timestamp fs mf ss hb efh snf af asv fname =
        { outcome := FetchOutcome.failed m
            (build_fetch_logs_query mf hb efh snf af (if ss > 250 then 250 else ss)) ss []
            { requested := ss, returned := 0, error := m, retries_attempted := 3 - 1 }
          fs := fs
          sleeps := 0 }) := by
  constructor
  · intro hall
    have s0 := fetch_retry_loop_retry execData 0 0 (msgs 0)
      (hall 0 (by omega)).1 (hall 0 (by omega)).2 (by omega)
    have s1 := fetch_retry_loop_retry execData 1 1 (msgs 1)
      (hall 1 (by omega)).1 (hall 1 (by omega)).2 (by omega)
    have s2 := fetch_retry_loop_stop execData 2 2 (msgs 2)
      (hall 2 (by omega)).1 (fun h => absurd h.2 (by omega))
    simp only [fetch_logs, s0, s1, s2]
  · intro h0 h5
    have s := fetch_retry_loop_stop execData 0 0 m h0 (by simp [h5])
    simp only [fetch_logs, s]

/-- Witness for C3: three straight HTTP-500 failures, then a non-retryable
failure, at the default tool parameters. -/
theorem C3_retry_policy_witness :
    (∀ i, i < 3 →
      (fun _ : Nat => (Except.error "500 Internal Server Error" :
          Except String (List PyDict))) i = Except.error "500 Internal Server Error"
      ∧ strHasSub "500 Internal Server Error" "500" = true)
    ∧ fetch_logs (fun _ => Except.error "500 Internal Server Error") "t" (fun _ => none)
        none 150 48 1 "chat" none true none =
      { outcome := FetchOutcome.failed "500 Internal Server Error"
          (build_fetch_logs_query none 48 1 "chat" none
            (if (150 : Int) > 250 then 250 else 150)) 150 []
          { requested := 150, returned := 0, error := "500 Internal Server Error",
            retries_attempted := 3 - 1 }
        fs := fun _ => none
        sleeps := 2 }
    ∧ fetch_logs (fun _ => Except.error "bad request") "t" (fun _ => none)
        none 150 48 1 "chat" none true none =
      { outcome := FetchOutcome.failed "bad request"
          (build_fetch_logs_query none 48 1 "chat" none
            (if (150 : Int) > 250 then 250 else 150)) 150 []
          { requested := 150, returned := 0, error := "bad request",
            retries_attempted := 3 - 1 }
        fs := fun _ => none
        sleeps := 0 } :=
  ⟨fun _ _ => ⟨rfl, by decide⟩,
    (C3_retry_policy (fun _ => Except.error "500 Internal Server Error") "t" (fun _ => none)
      none 150 48 1 "chat" none true none
      (fun _ => "500 Internal Server Error") "unused").1
      (fun _ _ => ⟨rfl, by decide⟩),
    (C3_retry_policy (fun _ => Except.error "bad request") "t" (fun _ => none)
      none 150 48 1 "chat" none true none
      (fun _ => "unused") "bad request").2 rfl (by decide)⟩

/-- C8: with a successful backend, a requested `sample_size > 250` resolves
the effective query limit to exactly 250 and records the truncation note in
the full response data (and in the saved dataset document), without
erroring; a `sample_size ≤ 250` keeps the requested limit and produces no
note. -/
theorem C8_sample_size_cap (execData : Nat → Except String (List PyDict))
    (timestamp : String) (fs : FileSys) (mf : Option String) (ss hb efh : Int)
    (snf : String) (af : Option PyDict) (fname : Option String)
    (recs : List PyDict) (h0 : execData 0 = Except.ok recs) :
    (250 < ss →
      (fetch_logs execData timestamp fs mf ss hb efh snf af false fname).outcome =
        FetchOutcome.full
          { query_executed := build_fetch_logs_query mf hb efh snf af 250
            sample_size := ss
            total_available := recs.length
            records := format_log_records recs
            sampling_info :=
              { requested := ss
                returned := (format_log_records recs).length
                date_range_hours := toString hb ++ " hours back, excluding first " ++
                  toString efh ++ " hour(s)"
                model_filter := mf
                pagination_note := some ("Requested " ++ toString ss ++
                  " but limited to 250. Pagination not yet implemented.")
                retries := none } })
    ∧ (250 < ss →
      (fetch_logs execData timestamp fs mf ss hb efh snf af true fname).fs
          (resolve_filename mf fname timestamp)
        = some (FullData.toJson
          { query_executed := build_fetch_logs_query mf hb efh snf af 250
            sample_size := ss
            total_available := recs.length
            records := format_log_records recs
            sampling_info :=
              { requested := ss
                returned := (format_log_records recs).length
                date_range_hours := toString hb ++ " hours back, excluding first " ++
                  toString efh ++ " hour(s)"
                model_filter := mf
                pagination_note := some ("Requested " ++ toString ss ++
                  " but limited to 250. Pagination not yet implemented.")
                retries := none } }))
    ∧ (ss ≤ 250 →
      (fetch_logs execData timestamp fs mf ss hb efh snf af false fname).outcome =
        FetchOutcome.full
          { query_executed := build_fetch_logs_query mf hb efh snf af ss
            sample_size := ss
            total_available := recs.length
            records := format_log_records recs
            sampling_info :=
              { requested := ss
                returned := (format_log_records recs).length
                date_range_hours := toString hb ++ " hours back, excluding first " ++
                  toString efh ++ " hour(s)"
                model_filter := mf
                pagination_note := none
                retries := none } }) := by
  have hloop := fetch_retry_loop_ok execData 0 0 recs h0
  refine ⟨fun h => ?_, fun h => ?_, fun h => ?_⟩
  · simp [fetch_logs, hloop, h]
  · simp [fetch_logs, hloop, h]
  · simp [fetch_logs, hloop, not_lt.2 h]

/-- Witness for C8 at `sample_size = 500` with a one-record backend reply. -/
theorem C8_sample_size_cap_witness :
    ((fun _ : Nat => (Except.ok [[("id", JsonVal.str "a")]] :
        Except String (List PyDict))) 0 = Except.ok [[("id", JsonVal.str "a")]])
    ∧ (250 : Int) < 500
    ∧ (fetch_logs (fun _ => Except.ok [[("id", JsonVal.str "a")]]) "t" (fun _ => none)
        none 500 48 1 "chat" none false none).outcome =
      FetchOutcome.full
        { query_executed := build_fetch_logs_query none 48 1 "chat" none 250
          sample_size := 500
          total_available := [[("id", JsonVal.str "a")]].length
          records := format_log_records [[("id", JsonVal.str "a")]]
          sampling_info :=
            { requested := 500
              returned := (format_log_records [[("id", JsonVal.str "a")]]).length
              date_range_hours := toString (48 : Int) ++ " hours back, excluding first " ++
                toString (1 : Int) ++ " hour(s)"
              model_filter := none
              pagination_note := some ("Requested " ++ toString (500 : Int) ++
                " but limited to 250. Pagination not yet implemented.")
              retries := none } } :=
  ⟨rfl, by decide,
    (C8_sample_size_cap (fun _ => Except.ok [[("id", JsonVal.str "a")]]) "t" (fun _ => none)
      none 500 48 1 "chat" none none [[("id", JsonVal.str "a")]] rfl).1 (by decide)⟩

/-- C1 fails on the code: a dataset of 51 records written by `fetch_logs`
cannot be read back whole with `start_index = 0, count = N`, because the
reader clamps the count to 50 — the returned sequence is the 50-record
prefix, not the written sequence. -/
theorem C1_roundtrip_counterexample :
    (read_logs_from_file c1_run.fs "d.json" 0 (format_log_records c1_raw).length).records
      ≠ JsonVal.arr (format_log_records c1_raw) := by
  have hlen : (format_log_records c1_raw).length = 51 := by
    simp [format_log_records, c1_raw]
  have hloop := fetch_retry_loop_ok (fun _ => Except.ok c1_raw) 0 0 c1_raw rfl
  have hrec : (read_logs_from_file c1_run.fs "d.json" 0
      (format_log_records c1_raw).length).records
      = JsonVal.arr ((format_log_records c1_raw).take 50) := by
    simp [c1_run, fetch_logs, hloop, read_logs_from_file, FullData.toJson,
      FullSampling.toJson, pyGet, hlen, resolve_filename, strEndsWithB, charsMatchAt]
  rw [hrec]
  intro h
  have h2 : (format_log_records c1_raw).take 50 = format_log_records c1_raw := by
    injection h
  have h3 := congrArg List.length h2
  rw [List.length_take, hlen] at h3
  omega

/-- C1 amended: for every dataset document written by `fetch_logs` whose
records list has length `N ≤ 50`, reading it back with
`start_index = 0, count = N` returns the formatted records exactly as
written, in order; for `N > 50` only the 50-record prefix is returned
(see the counterexample). -/
theorem C1_roundtrip_clamped (execData : Nat → Except String (List PyDict))
    (timestamp : String) (fs : FileSys) (mf : Option String) (ss hb efh : Int)
    (snf : String) (af : Option PyDict) (fname : Option String)
    (recs : List PyDict) (h0 : execData 0 = Except.ok recs)
    (h50 : (format_log_records recs).length ≤ 50) :
    (read_logs_from_file
        (fetch_logs execData timestamp fs mf ss hb efh snf af true fname).fs
        (resolve_filename mf fname timestamp) 0 (format_log_records recs).length).records
      = JsonVal.arr (format_log_records recs)
    ∧ (read_logs_from_file
        (fetch_logs execData timestamp fs mf ss hb efh snf af true fname).fs
        (resolve_filename mf fname timestamp) 0 (format_log_records recs).length).error
      = none := by
  have hloop := fetch_retry_loop_ok execData 0 0 recs h0
  have hmin : min (format_log_records recs).length 50 = (format_log_records recs).length :=
    Nat.min_eq_left h50
  constructor
  · simp [fetch_logs, hloop, read_logs_from_file, FullData.toJson, FullSampling.toJson,
      pyGet, hmin, List.take_length]
  · simp [fetch_logs, hloop, read_logs_from_file, FullData.toJson, FullSampling.toJson,
      pyGet, hmin]

/-- Witness for C1 amended: a single-record dataset saved to `d.json` and
read back whole. -/
theorem C1_roundtrip_clamped_witness :
    ((fun _ : Nat => (Except.ok [[("id", JsonVal.str "a")]] :
        Except String (List PyDict))) 0 = Except.ok [[("id", JsonVal.str "a")]])
    ∧ (format_log_records [[("id", JsonVal.str "a")]]).length ≤ 50
    ∧ (read_logs_from_file
        (fetch_logs (fun _ => Except.ok [[("id", JsonVal.str "a")]]) "t" (fun _ => none)
          none 150 48 1 "chat" none true (some "d.json")).fs
        (resolve_filename none (some "d.json") "t") 0
        (format_log_records [[("id", JsonVal.str "a")]]).length).records
      = JsonVal.arr (format_log_records [[("id", JsonVal.str "a")]]) :=
  ⟨rfl, by simp [format_log_records],
    (C1_roundtrip_clamped (fun _ => Except.ok [[("id", JsonVal.str "a")]]) "t" (fun _ => none)
      none 150 48 1 "chat" none (some "d.json") [[("id", JsonVal.str "a")]]
      rfl (by simp [format_log_records])).1⟩

end Mcp
